import Mathlib

/-
  Verification development for the BLADE dictation utility.

  Shallow embedding of the core logic of the repository:
  - src/hotkey_manager.py : hotkey matching and debounce guard
  - src/transcriber/base.py : default chunked transcription loop
  - src/transcriber/openai_backend.py : OpenAI backend transcribe and
    transcribe_chunks
  - src/ui/main_window.py : large-audio orchestration, outcome dispatch,
    UI handlers

  Python strings are modeled as List Char where character-level operations
  (lower, split) matter, and as String elsewhere.  The modules
  audio_processor and config are not part of the sources; their functions
  (combine_transcriptions, cleanup_temp_files, thresholds) are treated as
  abstract parameters or opaque events, per the spec.
-/

/-- ASCII model of Python str.lower applied to a character sequence
(hotkey strings and key names are ASCII). -/
def lowerStr (s : List Char) : List Char := s.map Char.toLower

/-- Model of Python str.split applied with separator plus, as used in
hotkey_manager.py line 108: always returns a non-empty list of tokens;
the empty string yields a single empty token. -/
def splitPlus : List Char → List (List Char)
  | [] => [[]]
  | c :: cs =>
    if c = '+' then [] :: splitPlus cs
    else
      match splitPlus cs with
      | [] => [[c]]
      | t :: ts => (c :: t) :: ts

/-- Live pressed state of the four modifier classes, the values
keyboard.is_pressed would return during the event. -/
structure ModState where
  ctrl : Bool
  alt : Bool
  shift : Bool
  win : Bool

def ctrlTok : List Char := ['c', 't', 'r', 'l']
def altTok : List Char := ['a', 'l', 't']
def shiftTok : List Char := ['s', 'h', 'i', 'f', 't']
def winTok : List Char := ['w', 'i', 'n']

/-- The first modifier loop of HotkeyManager._matches_hotkey
(hotkey_manager.py lines 117 to 125): return False as soon as a listed
modifier of one of the four known classes is not pressed; unknown tokens
are skipped. -/
def checkRequired (ms : ModState) : List (List Char) → Bool
  | [] => true
  | m :: rest =>
    (if m = ctrlTok then ms.ctrl
     else if m = altTok then ms.alt
     else if m = shiftTok then ms.shift
     else if m = winTok then ms.win
     else true) && checkRequired ms rest

/-- The extra-modifier checks of HotkeyManager._matches_hotkey
(hotkey_manager.py lines 128 to 135): a pressed modifier class that is
not listed among the parsed modifiers rejects the event. -/
def noExtras (ms : ModState) (modifiers : List (List Char)) : Bool :=
  (decide (ctrlTok ∈ modifiers) || !ms.ctrl) &&
  ((decide (altTok ∈ modifiers) || !ms.alt) &&
   ((decide (shiftTok ∈ modifiers) || !ms.shift) &&
    (decide (winTok ∈ modifiers) || !ms.win)))

/-- HotkeyManager._matches_hotkey (hotkey_manager.py lines 94 to 137):
empty spec never matches; otherwise lower the spec, split on plus, take
the last token as the main key and the rest as modifiers, compare the
lowered event name with the main key, then run the two modifier checks. -/
def matches_hotkey (ms : ModState) (eventName hotkey : List Char) : Bool :=
  if hotkey = [] then false
  else
    let parts := splitPlus (lowerStr hotkey)
    let main_key := parts.getLastD []
    let modifiers := parts.dropLast
    if lowerStr eventName ≠ main_key then false
    else checkRequired ms modifiers && noExtras ms modifiers

/-- The main key the claim ascribes to a spec string: the final token of
the lowered spec. -/
def specMainKey (hotkey : List Char) : List Char :=
  (splitPlus (lowerStr hotkey)).getLastD []

/-- The modifier list the claim ascribes to a spec string: all tokens of
the lowered spec before the final one. -/
def specMods (hotkey : List Char) : List (List Char) :=
  (splitPlus (lowerStr hotkey)).dropLast

/-- Statement of the match policy as the claim words it: the event main
key equals the spec final token case-insensitively, and for each of the
four modifier classes the live pressed state equals membership in the
spec modifier list. -/
def spec_matches (ms : ModState) (eventName hotkey : List Char) : Prop :=
  lowerStr eventName = specMainKey hotkey ∧
  (ms.ctrl = true ↔ ctrlTok ∈ specMods hotkey) ∧
  (ms.alt = true ↔ altTok ∈ specMods hotkey) ∧
  (ms.shift = true ↔ shiftTok ∈ specMods hotkey) ∧
  (ms.win = true ↔ winTok ∈ specMods hotkey)

instance (ms : ModState) (eventName hotkey : List Char) :
    Decidable (spec_matches ms eventName hotkey) := by
  unfold spec_matches; infer_instance

/-- HotkeyManager._should_trigger_record_toggle (hotkey_manager.py lines
86 to 92).  Times are in seconds, the threshold in milliseconds, exactly
as the code compares them; the result pairs the returned Bool with the
stored last-trigger timestamp after the call. -/
def should_trigger_record_toggle (debounce_ms last now : ℚ) : Bool × ℚ :=
  if now - last > debounce_ms / 1000 then (true, now) else (false, last)

/-- Python whitespace characters removed by str.strip. -/
def isPySpace (c : Char) : Bool :=
  c = ' ' || c = '\t' || c = '\n' || c = '\r' || c = '\x0b' || c = '\x0c'

/-- Model of Python str.strip as applied to API responses
(openai_backend.py lines 103 and 170). -/
def pstrip (s : String) : String :=
  String.mk (((s.data.dropWhile isPySpace).reverse.dropWhile isPySpace).reverse)

/-- The distinct exception kinds the backends raise.  message gives the
Python str of the exception, which is what reaches the UI handlers. -/
inductive TError where
  | cancelled
  | unavailable
  | apiError (msg : String)
deriving DecidableEq, Repr

/-- Python str of each raised exception: base.py line 70 and
openai_backend.py lines 101 and 158 raise with the literal text
Transcription cancelled; openai_backend.py lines 82 and 144 raise the
unavailability text; other errors propagate their own message. -/
def TError.message : TError → String
  | .cancelled => "Transcription cancelled"
  | .unavailable => "OpenAI API is not available (no API key or client initialization failed)"
  | .apiError m => m

/-- Mutable per-backend state from base.py lines 13 and 14. -/
structure BState where
  is_transcribing : Bool
  should_cancel : Bool
deriving DecidableEq, Repr

/-- The shared chunk loop of the default TranscriptionBackend.transcribe_chunks
(base.py lines 67 to 73) and of OpenAIBackend.transcribe_chunks
(openai_backend.py lines 155 to 173): at the top of each iteration the
should_cancel flag is read and, when set, the cancelled exception is
raised; otherwise the per-chunk call runs and its text is appended.

sc i is the value of self.should_cancel read by the check at iteration i:
the flag is shared state that external cancel_transcription or
reset_cancel_flag calls may change between reads, so the reads are
supplied as an oracle.  step f is the per-chunk call (self.transcribe for
the default implementation, the API request plus strip for the OpenAI
one).  The first component of the result lists the chunk files for which
the per-chunk call was actually made, in order. -/
def chunkLoop (sc : ℕ → Bool) (step : String → Except TError String) :
    List String → ℕ → List String × Except TError (List String)
  | [], _ => ([], .ok [])
  | f :: fs, i =>
    if sc i then ([], .error .cancelled)
    else
      match step f with
      | .error e => ([f], .error e)
      | .ok txt =>
        let r := chunkLoop sc step fs (i + 1)
        (f :: r.1, r.2.map (fun ts => txt :: ts))

/-- Default TranscriptionBackend.transcribe_chunks (base.py lines 48 to
75): run the chunk loop with self.transcribe as the per-chunk call, then
combine the collected transcriptions.  combine stands for the external
audio_processor.combine_transcriptions. -/
def base_transcribe_chunks (sc : ℕ → Bool)
    (transcribe : String → Except TError String)
    (combine : List String → String) (files : List String) :
    List String × Except TError String :=
  let r := chunkLoop sc transcribe files 0
  (r.1, r.2.map combine)

/-- Result of one OpenAI backend method call: the files sent to the API
in order, the returned or raised outcome, the value the is_transcribing
flag held while the body after the availability check ran, and its value
once the method has exited. -/
structure OpenAIRun where
  calls : List String
  result : Except TError String
  flagDuringBody : Bool
  flagAfter : Bool
deriving Repr

/-- OpenAIBackend.transcribe (openai_backend.py lines 69 to 112).
api models the file open plus client.audio.transcriptions.create block
(lines 92 to 97); cancelDuring tells whether an external
cancel_transcription call set the flag between the reset at line 86 and
the check at line 99.  When the availability check at line 81 fails the
method raises before entering the try block, so no call is made and the
state is untouched. -/
def openai_transcribe (avail : Bool) (s0 : BState)
    (api : Except String String) (cancelDuring : Bool) (file : String) :
    OpenAIRun :=
  if !avail then
    ⟨[], .error .unavailable, s0.is_transcribing, s0.is_transcribing⟩
  else
    let s1 : BState := { s0 with is_transcribing := true }
    let s2 : BState := { s1 with should_cancel := false }
    match api with
    | .error m =>
      let sF : BState := { s2 with is_transcribing := false }
      ⟨[file], .error (.apiError m), s2.is_transcribing, sF.is_transcribing⟩
    | .ok resp =>
      let s3 : BState := { s2 with should_cancel := s2.should_cancel || cancelDuring }
      if s3.should_cancel then
        let sF : BState := { s3 with is_transcribing := false }
        ⟨[file], .error .cancelled, s2.is_transcribing, sF.is_transcribing⟩
      else
        let sF : BState := { s3 with is_transcribing := false }
        ⟨[file], .ok (pstrip resp), s2.is_transcribing, sF.is_transcribing⟩

/-- The per-chunk body of the OpenAI chunk loop (openai_backend.py lines
163 to 170): the API request for one chunk followed by str.strip of the
response; an API error propagates. -/
def openaiStep (api : String → Except String String) (f : String) :
    Except TError String :=
  match api f with
  | .error m => .error (.apiError m)
  | .ok resp => .ok (pstrip resp)

/-- OpenAIBackend.transcribe_chunks (openai_backend.py lines 131 to 186):
availability check, set is_transcribing, reset the cancel flag, run the
chunk loop with the API request plus strip as the per-chunk call, combine
the texts, and clear is_transcribing in the finally block whatever the
outcome.  sc supplies the should_cancel reads of the loop as in
chunkLoop; combine stands for audio_processor.combine_transcriptions. -/
def openai_transcribe_chunks (avail : Bool) (s0 : BState) (sc : ℕ → Bool)
    (api : String → Except String String) (combine : List String → String)
    (files : List String) : OpenAIRun :=
  if !avail then
    ⟨[], .error .unavailable, s0.is_transcribing, s0.is_transcribing⟩
  else
    let s1 : BState := { s0 with is_transcribing := true }
    let s2 : BState := { s1 with should_cancel := false }
    let r := chunkLoop sc (openaiStep api) files 0
    let sF : BState := { s2 with is_transcribing := false }
    ⟨r.1, r.2.map combine, s2.is_transcribing, sF.is_transcribing⟩

/-- The backend classes of the repository.  LocalWhisperBackend is
imported by src/transcriber/init and annotated as a TranscriptionBackend
in main_window.py line 134; its own file is not among the sources.
Modelled from the spec: the local on-device model backend is a variant
of the uniform backend contract, so it is a subclass of
TranscriptionBackend. -/
inductive PyClass where
  | transcriptionBackend
  | openAIBackend
  | localWhisperBackend
deriving DecidableEq, Repr

/-- Method resolution order of each class: the class itself followed by
its bases, ending at TranscriptionBackend (base.py line 8, ABC elided). -/
def mro : PyClass → List PyClass
  | .transcriptionBackend => [.transcriptionBackend]
  | .openAIBackend => [.openAIBackend, .transcriptionBackend]
  | .localWhisperBackend => [.localWhisperBackend, .transcriptionBackend]

/-- Which classes define transcribe_chunks in their own body: the base
class does at base.py line 48 and OpenAIBackend does at
openai_backend.py line 131.  Whether LocalWhisperBackend overrides it is
unknown (its file is not among the sources); false is the conservative
choice and is irrelevant to attribute lookup through the base. -/
def definesTranscribeChunks : PyClass → Bool
  | .transcriptionBackend => true
  | .openAIBackend => true
  | .localWhisperBackend => false

/-- Python hasattr for transcribe_chunks: the attribute is found if any
class on the method resolution order defines it. -/
def hasattr_transcribe_chunks (c : PyClass) : Bool :=
  (mro c).any definesTranscribeChunks

/-- The fallback loop in the else branch of MainWindow._transcribe_large_audio
(main_window.py lines 576 to 587): transcribe each chunk in order with
backend.transcribe and accumulate the texts; there is no cancel check in
this loop.  The first component lists the chunks for which transcribe was
called, in order. -/
def fallbackLoop (transcribe : String → Except TError String) :
    List String → List String × Except TError (List String)
  | [] => ([], .ok [])
  | f :: fs =>
    match transcribe f with
    | .error e => ([f], .error e)
    | .ok txt =>
      let r := fallbackLoop transcribe fs
      (f :: r.1, r.2.map (fun ts => txt :: ts))

/-- Observable events of one run of the large-audio orchestration.
callOn marks an API request made inside backend.transcribe_chunks,
chunksCall the single dispatch to that method, fallbackCall a
backend.transcribe call made by the fallback branch of the orchestrator
itself, cleanupCall an invocation of audio_processor.cleanup_temp_files. -/
inductive Event where
  | callOn (file : String)
  | chunksCall
  | fallbackCall (file : String)
  | cleanupCall
  | dispatchComplete (text : String)
  | dispatchError (msg : String)
deriving DecidableEq, Repr

/-- Environment of one MainWindow._transcribe_large_audio run: the class
of self.current_backend, the outcome of audio_processor.split_audio_file
(error when it raises, otherwise the chunk list it returned), the
behavior of backend.transcribe_chunks (files it would send and its
outcome), the behavior of backend.transcribe for the fallback branch,
and audio_processor.combine_transcriptions. -/
structure OrchEnv where
  backend : PyClass
  splitResult : Except String (List String)
  chunksImpl : List String → List String × Except TError String
  transcribeImpl : String → Except TError String
  combine : List String → String

/-- The try block of MainWindow._transcribe_large_audio (main_window.py
lines 556 to 594): split, raise when the chunk list is empty (line 568),
then either call backend.transcribe_chunks (line 574) when hasattr finds
the method, or run the fallback loop and combine (lines 576 to 591).
Returns the events of the block together with the text produced or the
str of the exception that left the block. -/
def largeAudioBody (env : OrchEnv) : List Event × Except String String :=
  match env.splitResult with
  | .error m => ([], .error m)
  | .ok chunk_files =>
    if chunk_files.isEmpty then
      ([], .error "Failed to split audio file into chunks")
    else if hasattr_transcribe_chunks env.backend then
      let r := env.chunksImpl chunk_files
      (Event.chunksCall :: r.1.map Event.callOn, r.2.mapError TError.message)
    else
      let r := fallbackLoop env.transcribeImpl chunk_files
      (r.1.map Event.fallbackCall, (r.2.map env.combine).mapError TError.message)

/-- Dispatch of the outcome to the main thread: line 594 schedules
_on_transcription_complete on success, line 598 schedules
_on_transcription_error with str of the exception on failure. -/
def dispatchEvent : Except String String → Event
  | .ok t => .dispatchComplete t
  | .error m => .dispatchError m

/-- MainWindow._transcribe_large_audio (main_window.py lines 553 to 604)
as its full event trace: the try block, the dispatch of its outcome, and
the finally block (lines 599 to 604) which always runs cleanup_temp_files
once, swallowing any error cleanup itself raises. -/
def transcribe_large_audio (env : OrchEnv) : List Event :=
  (largeAudioBody env).1 ++ [dispatchEvent (largeAudioBody env).2, Event.cleanupCall]

/-- MainWindow._transcribe_large_audio_from_file (main_window.py lines
788 to 839) is statement-for-statement the same orchestration with the
source path taken as an argument instead of config.RECORDED_AUDIO_FILE;
the source path only feeds split_audio_file, which the environment
already abstracts, so its embedding is the same function. -/
def transcribe_large_audio_from_file (env : OrchEnv) : List Event :=
  transcribe_large_audio env

/-- UI actions performed by the main-thread handlers. -/
inductive UIAction where
  | clearStatus
  | showErrorDialog (msg : String)
  | updateStatus (msg : String)
  | setTranscription (text : String)
  | pasteText (text : String)
  | enableControls
  | showCanceling (msg : String)
  | cancelBackend
deriving DecidableEq, Repr

/-- MainWindow._on_transcription_complete (main_window.py lines 606 to
624): show the text, paste it, clear the overlay, show Ready (Pasted),
re-enable the buttons (lines 620 to 622 collapsed into enableControls). -/
def on_transcription_complete (t : String) : List UIAction :=
  [.setTranscription ("Transcription: " ++ t), .pasteText t, .clearStatus,
   .updateStatus "Ready (Pasted)", .enableControls]

/-- MainWindow._on_transcription_error (main_window.py lines 626 to 635):
clear the overlay, show the error dialog with the message prefixed by
Transcription failed, show Ready, re-enable the buttons. -/
def on_transcription_error (m : String) : List UIAction :=
  [.clearStatus, .showErrorDialog ("Transcription failed: " ++ m),
   .updateStatus "Ready", .enableControls]

/-- The main-thread handling of a finished large-audio job: success goes
to _on_transcription_complete, any exception to _on_transcription_error. -/
def jobUI (env : OrchEnv) : List UIAction :=
  match (largeAudioBody env).2 with
  | .ok t => on_transcription_complete t
  | .error m => on_transcription_error m

/-- MainWindow.cancel_transcription (main_window.py lines 507 to 536):
when recording, stop and show the Recording Cancelled indicator; else
when the backend is transcribing, raise its cancel flag and show the
Transcription Cancelled indicator; else show a plain Cancelled
indicator. -/
def cancel_transcription_actions (recording transcribing : Bool) : List UIAction :=
  if recording then
    [.showCanceling "Recording Cancelled", .enableControls]
  else if transcribing then
    [.cancelBackend, .showCanceling "Transcription Cancelled", .enableControls]
  else
    [.showCanceling "Cancelled", .enableControls]

/-- The per-token test of the required-modifier loop: the pressed state
of a known modifier token, true for unknown tokens.  checkRequired is the
conjunction of this test over the modifier tokens. -/
def reqFn (ms : ModState) (m : List Char) : Bool :=
  if m = ctrlTok then ms.ctrl
  else if m = altTok then ms.alt
  else if m = shiftTok then ms.shift
  else if m = winTok then ms.win
  else true

theorem checkRequired_eq_all (ms : ModState) (mods : List (List Char)) :
    checkRequired ms mods = mods.all (reqFn ms) := by
  induction mods with
  | nil => rfl
  | cons m rest ih => rw [List.all_cons, ← ih]; rfl

theorem reqFn_ctrl (ms : ModState) : reqFn ms ctrlTok = ms.ctrl := by
  rw [reqFn, if_pos rfl]

theorem reqFn_alt (ms : ModState) : reqFn ms altTok = ms.alt := by
  rw [reqFn, if_neg (by decide), if_pos rfl]

theorem reqFn_shift (ms : ModState) : reqFn ms shiftTok = ms.shift := by
  rw [reqFn, if_neg (by decide), if_neg (by decide), if_pos rfl]

theorem reqFn_win (ms : ModState) : reqFn ms winTok = ms.win := by
  rw [reqFn, if_neg (by decide), if_neg (by decide), if_neg (by decide),
    if_pos rfl]

/-- The required-modifier loop passes exactly when every one of the four
modifier classes listed among the parsed modifier tokens is pressed. -/
theorem checkRequired_iff (ms : ModState) (mods : List (List Char)) :
    checkRequired ms mods = true ↔
      ((ctrlTok ∈ mods → ms.ctrl = true) ∧ (altTok ∈ mods → ms.alt = true) ∧
       (shiftTok ∈ mods → ms.shift = true) ∧ (winTok ∈ mods → ms.win = true)) := by
  rw [checkRequired_eq_all, List.all_eq_true]
  constructor
  · intro h
    exact ⟨fun hm => by have := h _ hm; rwa [reqFn_ctrl] at this,
           fun hm => by have := h _ hm; rwa [reqFn_alt] at this,
           fun hm => by have := h _ hm; rwa [reqFn_shift] at this,
           fun hm => by have := h _ hm; rwa [reqFn_win] at this⟩
  · rintro ⟨hc, ha, hs, hw⟩ m hm
    by_cases h1 : m = ctrlTok
    · subst h1; rw [reqFn_ctrl]; exact hc hm
    by_cases h2 : m = altTok
    · subst h2; rw [reqFn_alt]; exact ha hm
    by_cases h3 : m = shiftTok
    · subst h3; rw [reqFn_shift]; exact hs hm
    by_cases h4 : m = winTok
    · subst h4; rw [reqFn_win]; exact hw hm
    rw [reqFn, if_neg h1, if_neg h2, if_neg h3, if_neg h4]

/-- The extra-modifier checks pass exactly when every pressed modifier
class is listed among the parsed modifier tokens. -/
theorem noExtras_iff (ms : ModState) (mods : List (List Char)) :
    noExtras ms mods = true ↔
      ((ms.ctrl = true → ctrlTok ∈ mods) ∧ (ms.alt = true → altTok ∈ mods) ∧
       (ms.shift = true → shiftTok ∈ mods) ∧ (ms.win = true → winTok ∈ mods)) := by
  unfold noExtras
  cases hc : ms.ctrl <;> cases ha : ms.alt <;> cases hs : ms.shift <;>
    cases hw : ms.win <;> simp

/-- C1.  For every non-empty hotkey spec string, _matches_hotkey returns
true iff the lowered event name equals the final token of the lowered
spec and, for each of the four modifier classes ctrl, alt, shift and win,
the live pressed state equals membership of the class token in the spec
modifier list; the empty spec string matches no event. -/
theorem matches_hotkey_spec :
    (∀ ms eventName, matches_hotkey ms eventName [] = false) ∧
    ∀ ms eventName hotkey, hotkey ≠ [] →
      (matches_hotkey ms eventName hotkey = true ↔
        spec_matches ms eventName hotkey) := by
  refine ⟨fun ms ev => by simp [matches_hotkey], fun ms ev hot h => ?_⟩
  unfold matches_hotkey spec_matches specMainKey specMods
  rw [if_neg h]
  by_cases hk : lowerStr ev = (splitPlus (lowerStr hot)).getLastD []
  · rw [if_neg (not_not_intro hk), Bool.and_eq_true, checkRequired_iff,
      noExtras_iff]
    simp only [hk, true_and]
    tauto
  · rw [if_pos hk]
    simp only [Bool.false_eq_true, false_iff]
    intro hR
    exact hk hR.1

/-- Concrete run of C1: ctrl+r with ctrl held and main key R matches. -/
theorem matches_hotkey_spec_witness :
    ("ctrl+r".data ≠ ([] : List Char)) ∧
      matches_hotkey ⟨true, false, false, false⟩ "R".data "ctrl+r".data = true :=
  ⟨by decide,
   (matches_hotkey_spec.2 ⟨true, false, false, false⟩ "R".data "ctrl+r".data
      (by decide)).mpr (by decide)⟩

/-- C7 counterexample.  At an elapsed time exactly equal to the debounce
threshold the claim predicts acceptance with an updated timestamp, but
the guard compares with a strict greater-than and rejects, leaving the
stored timestamp unchanged: with a threshold of 1000 ms, last trigger at
time 0 and a new trigger at time 1 s, the elapsed time is not below the
threshold yet the guard returns false and keeps the old timestamp. -/
theorem debounce_boundary_counterexample :
    ¬((1 : ℚ) - 0 < 1000 / 1000) ∧
      should_trigger_record_toggle 1000 0 1 = (false, 0) := by
  constructor
  · norm_num
  · unfold should_trigger_record_toggle
    rw [if_neg (by norm_num)]

/-- C7 amended.  The debounce guard accepts a trigger, updating the
stored last-trigger timestamp, exactly when the elapsed time strictly
exceeds the threshold; at or below the threshold it rejects and leaves
the timestamp unchanged.  Hence two triggers within the window (or at
exactly the window) register once, and two triggers separated by more
than the window register twice. -/
theorem debounce_strict (debounce_ms last now : ℚ) :
    (debounce_ms / 1000 < now - last →
      should_trigger_record_toggle debounce_ms last now = (true, now)) ∧
    (now - last ≤ debounce_ms / 1000 →
      should_trigger_record_toggle debounce_ms last now = (false, last)) := by
  unfold should_trigger_record_toggle
  constructor
  · intro hgt
    rw [if_pos hgt]
  · intro hle
    rw [if_neg (not_lt.mpr hle)]

/-- Concrete run of C7 amended: 2 s elapsed against a 1000 ms window
accepts; 0.5 s elapsed against the same window rejects. -/
theorem debounce_strict_witness :
    should_trigger_record_toggle 1000 0 2 = (true, 2) ∧
      should_trigger_record_toggle 1000 0 (1 / 2) = (false, 0) :=
  ⟨(debounce_strict 1000 0 2).1 (by norm_num),
   (debounce_strict 1000 0 (1 / 2)).2 (by norm_num)⟩

/-- C3.  The finally block of the large-audio orchestration runs
cleanup_temp_files exactly once on every exit path: for every
environment (split failure, empty chunk list, chunked or fallback
transcription, success, failure or cancellation) the trace of the run
contains exactly one cleanupCall event, in both the recorded-audio and
the opened-file variants of the workflow. -/
theorem cleanup_exactly_once (env : OrchEnv) :
    (transcribe_large_audio env).count Event.cleanupCall = 1 ∧
    (transcribe_large_audio_from_file env).count Event.cleanupCall = 1 := by
  have hbody : (largeAudioBody env).1.count Event.cleanupCall = 0 := by
    unfold largeAudioBody
    cases env.splitResult with
    | error m => simp
    | ok cf =>
      dsimp only
      by_cases hcf : cf.isEmpty
      · simp [hcf]
      · by_cases hat : hasattr_transcribe_chunks env.backend
        · rw [if_neg hcf, if_pos hat]
          rw [List.count_eq_zero]
          simp [List.mem_map]
        · rw [if_neg hcf, if_neg hat]
          rw [List.count_eq_zero]
          simp [List.mem_map]
  have hdisp : ∀ r : Except String String, dispatchEvent r ≠ Event.cleanupCall := by
    intro r
    cases r <;> simp [dispatchEvent]
  have h1 : (transcribe_large_audio env).count Event.cleanupCall = 1 := by
    unfold transcribe_large_audio
    rw [List.count_append, hbody]
    simp [List.count_cons, hdisp (largeAudioBody env).2]
  exact ⟨h1, h1⟩

/-- C10.  Because the base class defines transcribe_chunks, Python
attribute lookup finds it on every backend class, so the hasattr branch
of the orchestrator always chooses the chunked path: no run of the
large-audio orchestration ever contains a fallbackCall event, and every
run whose split produced a non-empty chunk list contains the chunksCall
dispatch to backend.transcribe_chunks.  The same holds for the
opened-file variant, which is the same embedded function. -/
theorem fallback_branch_unreachable :
    (∀ c : PyClass, hasattr_transcribe_chunks c = true) ∧
    (∀ env f, Event.fallbackCall f ∉ transcribe_large_audio env) ∧
    (∀ env cs, env.splitResult = .ok cs → cs ≠ [] →
      Event.chunksCall ∈ transcribe_large_audio env) := by
  have hattr : ∀ c : PyClass, hasattr_transcribe_chunks c = true := fun c => by
    cases c <;> rfl
  refine ⟨hattr, fun env f => ?_, fun env cs hs hne => ?_⟩
  · unfold transcribe_large_audio
    rw [List.mem_append]
    rintro (hmem | hmem)
    · revert hmem
      unfold largeAudioBody
      cases env.splitResult with
      | error m => simp
      | ok cf =>
        dsimp only
        by_cases hcf : cf.isEmpty
        · simp [hcf]
        · rw [if_neg hcf, if_pos (hattr env.backend)]
          simp [List.mem_map]
    · rcases List.mem_cons.mp hmem with heq | hmem2
      · exact absurd heq.symm (by cases h : (largeAudioBody env).2 <;> simp [dispatchEvent])
      · simp at hmem2
  · unfold transcribe_large_audio largeAudioBody
    rw [hs]
    dsimp only
    rw [if_neg (by simp [hne]), if_pos (hattr env.backend)]
    simp

/-- One-chunk environment whose backend succeeds, used to exercise the
chunked branch of the orchestrator. -/
def envSmall : OrchEnv :=
  { backend := .localWhisperBackend,
    splitResult := .ok ["chunk_000.mp3"],
    chunksImpl := fun cf => (cf, .ok "hello"),
    transcribeImpl := fun _ => .ok "hello",
    combine := String.intercalate " " }

/-- Concrete run of C10: a job through the LocalWhisperBackend takes the
chunked branch and never the fallback branch. -/
theorem fallback_branch_unreachable_witness :
    Event.chunksCall ∈ transcribe_large_audio envSmall ∧
      Event.fallbackCall "chunk_000.mp3" ∉ transcribe_large_audio envSmall :=
  ⟨fallback_branch_unreachable.2.2 envSmall ["chunk_000.mp3"] rfl (by decide),
   fallback_branch_unreachable.2.1 envSmall "chunk_000.mp3"⟩

/-- One-chunk environment whose backend observes the cancellation flag
and raises the cancelled exception. -/
def envCancelled : OrchEnv :=
  { backend := .openAIBackend,
    splitResult := .ok ["chunk_000.mp3"],
    chunksImpl := fun cf => (cf, .error .cancelled),
    transcribeImpl := fun _ => .ok "",
    combine := String.intercalate " " }

/-- C2 counterexample.  A job whose backend call observes the
cancellation flag leaves the try block with the cancelled exception, and
the orchestrator routes it to _on_transcription_error like any failure:
the error-dialog path IS taken for cancellation, against the claim that
it is reserved for failures. -/
theorem cancelled_takes_error_dialog_path :
    (largeAudioBody envCancelled).2 = .error "Transcription cancelled" ∧
      UIAction.showErrorDialog "Transcription failed: Transcription cancelled"
        ∈ jobUI envCancelled := by
  constructor
  · rfl
  · rw [show jobUI envCancelled
        = on_transcription_error "Transcription cancelled" from rfl]
    simp [on_transcription_error]

/-- C2 amended.  A large-audio job in which the cancellation flag is
observed is surfaced through the same error path as failures: the job
outcome is dispatched to _on_transcription_error, whose dialog reads
Transcription failed: Transcription cancelled.  The neutral cancelled
indicator is shown only by the cancel_transcription command handler at
the moment cancellation is requested, not as the job outcome. -/
theorem cancelled_routed_to_error_handler :
    (∀ env cs, env.splitResult = .ok cs → cs ≠ [] →
        (env.chunksImpl cs).2 = .error .cancelled →
        jobUI env = on_transcription_error "Transcription cancelled" ∧
        UIAction.showErrorDialog "Transcription failed: Transcription cancelled"
          ∈ jobUI env) ∧
    UIAction.showCanceling "Transcription Cancelled"
      ∈ cancel_transcription_actions false true := by
  have hattr : ∀ c : PyClass, hasattr_transcribe_chunks c = true := fun c => by
    cases c <;> rfl
  constructor
  · intro env cs hs hne hcan
    have hbody : (largeAudioBody env).2 = .error "Transcription cancelled" := by
      unfold largeAudioBody
      rw [hs]
      dsimp only
      rw [if_neg (by simp [hne]), if_pos (hattr env.backend), hcan]
      rfl
    have hui : jobUI env = on_transcription_error "Transcription cancelled" := by
      unfold jobUI
      rw [hbody]
    refine ⟨hui, ?_⟩
    rw [hui]
    simp [on_transcription_error]
  · simp [cancel_transcription_actions]

/-- Concrete run of C2 amended on the cancelled environment. -/
theorem cancelled_routed_to_error_handler_witness :
    jobUI envCancelled = on_transcription_error "Transcription cancelled" :=
  (cancelled_routed_to_error_handler.1 envCancelled ["chunk_000.mp3"] rfl
    (by decide) rfl).1

/-- With the cancellation flag never observed and every per-chunk call
succeeding, the chunk loop calls every chunk in order and collects the
per-chunk transcriptions in chunk order. -/
theorem chunkLoop_no_cancel (tr : String → String) (files : List String) (i : ℕ) :
    chunkLoop (fun _ => false) (fun f => .ok (tr f)) files i
      = (files, .ok (files.map tr)) := by
  induction files generalizing i with
  | nil => rfl
  | cons f fs ih =>
    unfold chunkLoop
    rw [if_neg (by simp)]
    dsimp only
    rw [ih (i + 1)]
    rfl

/-- With every per-chunk call succeeding, the orchestrator fallback loop
calls every chunk in order and collects the transcriptions in order. -/
theorem fallbackLoop_ok (tr : String → String) (files : List String) :
    fallbackLoop (fun f => .ok (tr f)) files = (files, .ok (files.map tr)) := by
  induction files with
  | nil => rfl
  | cons f fs ih =>
    unfold fallbackLoop
    dsimp only
    rw [ih]
    rfl

/-- Reduction of OpenAIBackend.transcribe_chunks on an available backend
to the shared chunk loop, with the flag set while the body runs and
cleared afterwards. -/
theorem openai_chunks_eval (s0 : BState) (sc : ℕ → Bool)
    (api : String → Except String String) (combine : List String → String)
    (files : List String) :
    openai_transcribe_chunks true s0 sc api combine files
      = ⟨(chunkLoop sc (openaiStep api) files 0).1,
         (chunkLoop sc (openaiStep api) files 0).2.map combine,
         true, false⟩ := rfl

/-- C4.  Given agreeing per-chunk transcribe results and no cancellation,
the three chunked code paths produce identical combined output: the
base-class default transcribe_chunks, the orchestrator fallback loop
followed by combine, and the OpenAI backend native transcribe_chunks all
return combine applied to the per-chunk results in chunk order. -/
theorem chunked_paths_agree (files : List String) (tr raw : String → String)
    (combine : List String → String) (s0 : BState)
    (h : ∀ f, pstrip (raw f) = tr f) :
    (base_transcribe_chunks (fun _ => false) (fun f => .ok (tr f)) combine files).2
        = .ok (combine (files.map tr)) ∧
    (fallbackLoop (fun f => .ok (tr f)) files).2.map combine
        = .ok (combine (files.map tr)) ∧
    (openai_transcribe_chunks true s0 (fun _ => false)
        (fun f => .ok (raw f)) combine files).result
        = .ok (combine (files.map tr)) := by
  have hstep : openaiStep (fun f => .ok (raw f)) = fun f => .ok (tr f) := by
    funext f
    show Except.ok (pstrip (raw f)) = _
    rw [h f]
  refine ⟨?_, ?_, ?_⟩
  · unfold base_transcribe_chunks
    rw [chunkLoop_no_cancel]
    rfl
  · rw [fallbackLoop_ok]
    rfl
  · rw [openai_chunks_eval, hstep, chunkLoop_no_cancel]
    rfl

/-- Concrete run of C4: two chunks whose raw API responses strip to the
per-chunk texts; all three paths yield the same combined string. -/
theorem chunked_paths_agree_witness :
    (base_transcribe_chunks (fun _ => false) (fun _ => .ok "x")
        (String.intercalate " ") ["a.mp3", "b.mp3"]).2 = .ok "x x" ∧
    (openai_transcribe_chunks true ⟨false, false⟩ (fun _ => false)
        (fun _ => .ok " x ") (String.intercalate " ") ["a.mp3", "b.mp3"]).result
        = .ok "x x" := by
  have hx : pstrip " x " = "x" := by decide
  have h := chunked_paths_agree ["a.mp3", "b.mp3"] (fun _ => "x") (fun _ => " x ")
    (String.intercalate " ") ⟨false, false⟩ (fun _ => hx)
  exact ⟨h.1.trans (by rfl), h.2.2.trans (by rfl)⟩

/-- C6.  Chunked transcription preserves order: with no cancellation and
all per-chunk calls succeeding, the list of per-chunk transcriptions
handed to combine_transcriptions is exactly the map of the per-chunk
transcription over the chunk files — the transcription of chunk i at
index i, nothing dropped, duplicated or reordered — both for the shared
backend chunk loop and for the orchestrator fallback loop. -/
theorem chunk_order_preserved (tr : String → String) (files : List String) :
    (chunkLoop (fun _ => false) (fun f => .ok (tr f)) files 0).2
        = .ok (files.map tr) ∧
    (fallbackLoop (fun f => .ok (tr f)) files).2 = .ok (files.map tr) := by
  rw [chunkLoop_no_cancel, fallbackLoop_ok]
  exact ⟨rfl, rfl⟩

/-- If the loop reaches iteration i (every earlier check read false and
every earlier per-chunk call succeeded) and the check at iteration i
reads the flag as true, the loop stops with the cancelled exception
having called exactly the first i chunks. -/
theorem chunkLoop_cancel_at (sc : ℕ → Bool) (step : String → Except TError String) :
    ∀ (files : List String) (k i : ℕ), i < files.length →
    sc (k + i) = true →
    (∀ j, j < i → sc (k + j) = false) →
    (∀ j, j < i → ∃ t, step (files.getD j "") = .ok t) →
    chunkLoop sc step files k = (files.take i, .error .cancelled) := by
  intro files
  induction files with
  | nil =>
    intro k i hi
    simp at hi
  | cons f fs ih =>
    intro k i hi hsc hprev hok
    cases i with
    | zero =>
      have h0 : sc k = true := by simpa using hsc
      unfold chunkLoop
      rw [if_pos h0]
      rfl
    | succ n =>
      have h0 : sc k = false := by simpa using hprev 0 (Nat.succ_pos n)
      obtain ⟨t, ht⟩ : ∃ t, step f = .ok t := by
        simpa using hok 0 (Nat.succ_pos n)
      unfold chunkLoop
      rw [if_neg (by simp [h0]), ht]
      dsimp only
      rw [ih (k + 1) n (by simpa using Nat.succ_lt_succ_iff.mp hi)
        (by have e : k + 1 + n = k + (n + 1) := by omega
            rw [e]; exact hsc)
        (fun j hj => by
          have e : k + 1 + j = k + (j + 1) := by omega
          rw [e]; exact hprev (j + 1) (by omega))
        (fun j hj => by simpa using hok (j + 1) (by omega))]
      rfl

/-- C5.  The cancellation flag is observed at the start of every chunk
iteration: for every chunk list and index i, if the loop reaches
iteration i and the flag is set when iteration i begins, both the
default base-class chunk transcription and the OpenAI native one raise
the cancelled exception having made per-chunk calls for exactly the
chunks before i — no transcribe or API call is made for chunk i or any
later chunk. -/
theorem cancel_observed_each_iteration (sc : ℕ → Bool)
    (transcribe : String → Except TError String)
    (api : String → Except String String) (combine : List String → String)
    (s0 : BState) (files : List String) (i : ℕ)
    (hlt : i < files.length) (hsc : sc i = true)
    (hprev : ∀ j, j < i → sc j = false)
    (hok : ∀ j, j < i → ∃ t, transcribe (files.getD j "") = .ok t)
    (hapi : ∀ j, j < i → ∃ t, api (files.getD j "") = .ok t) :
    base_transcribe_chunks sc transcribe combine files
        = (files.take i, .error .cancelled) ∧
    (openai_transcribe_chunks true s0 sc api combine files).calls
        = files.take i ∧
    (openai_transcribe_chunks true s0 sc api combine files).result
        = .error .cancelled := by
  have hb := chunkLoop_cancel_at sc transcribe files 0 i hlt
    (by simpa using hsc) (fun j hj => by simpa using hprev j hj) hok
  have hstep : ∀ j, j < i → ∃ t, openaiStep api (files.getD j "") = .ok t := by
    intro j hj
    obtain ⟨t, ht⟩ := hapi j hj
    exact ⟨pstrip t, by unfold openaiStep; rw [ht]⟩
  have ho := chunkLoop_cancel_at sc (openaiStep api) files 0 i hlt
    (by simpa using hsc) (fun j hj => by simpa using hprev j hj) hstep
  refine ⟨?_, ?_, ?_⟩
  · unfold base_transcribe_chunks
    rw [hb]
    rfl
  · rw [openai_chunks_eval, ho]
  · rw [openai_chunks_eval, ho]
    rfl

/-- Concrete run of C5: the flag set before iteration 1 of three chunks
stops the loop after the first call with a cancelled outcome. -/
theorem cancel_observed_each_iteration_witness :
    base_transcribe_chunks (fun i => decide (i = 1)) (fun _ => .ok "t")
        (String.intercalate " ") ["a.mp3", "b.mp3", "c.mp3"]
      = (["a.mp3"], .error .cancelled) := by
  have h := cancel_observed_each_iteration (fun i => decide (i = 1))
    (fun _ => .ok "t") (fun _ => .ok "t") (String.intercalate " ")
    ⟨false, false⟩ ["a.mp3", "b.mp3", "c.mp3"] 1
    (by decide) (by decide)
    (fun j hj => by
      have e : j = 0 := by omega
      subst e; decide)
    (fun j hj => ⟨"t", rfl⟩)
    (fun j hj => ⟨"t", rfl⟩)
  exact h.1.trans (by rfl)

/-- C8.  OpenAIBackend.transcribe raises exactly when the backend is
unavailable (without attempting the underlying call), when the
underlying call raises, or when the cancellation flag is found raised
after the underlying call completes (a distinct cancelled condition);
otherwise it returns the stripped response text. -/
theorem openai_transcribe_spec (s0 : BState) (api : Except String String)
    (cancelDuring : Bool) (file : String) :
    ((openai_transcribe false s0 api cancelDuring file).result
        = .error .unavailable ∧
     (openai_transcribe false s0 api cancelDuring file).calls = []) ∧
    ((openai_transcribe true s0 api cancelDuring file).calls = [file]) ∧
    (∀ m, api = .error m →
      (openai_transcribe true s0 api cancelDuring file).result
        = .error (.apiError m)) ∧
    (∀ r, api = .ok r → cancelDuring = true →
      (openai_transcribe true s0 api cancelDuring file).result
        = .error .cancelled) ∧
    (∀ r, api = .ok r → cancelDuring = false →
      (openai_transcribe true s0 api cancelDuring file).result
        = .ok (pstrip r)) := by
  refine ⟨⟨rfl, rfl⟩, ?_, ?_, ?_, ?_⟩
  · cases api with
    | error m => rfl
    | ok r => cases cancelDuring <;> rfl
  · intro m hm
    subst hm
    rfl
  · intro r hr hc
    subst hr
    subst hc
    rfl
  · intro r hr hc
    subst hr
    subst hc
    rfl

/-- Concrete run of C8: an available backend with a successful call and
no cancellation returns the stripped response. -/
theorem openai_transcribe_spec_witness :
    (openai_transcribe true ⟨false, false⟩ (.ok " hi ") false "f.wav").result
      = .ok "hi" := by
  have h := (openai_transcribe_spec ⟨false, false⟩ (.ok " hi ") false
    "f.wav").2.2.2.2 " hi " rfl rfl
  rw [h]
  exact congrArg Except.ok (by decide)

/-- C9.  The is_transcribing flag is scoped to the transcription work:
for transcribe and transcribe_chunks on an available backend the flag is
true while the body runs, and after the call returns or raises — on
success, failure, cancellation or unavailability — the flag is false
again, given the single-job invariant that it was false before the
call (the unavailable early raise leaves the flag untouched). -/
theorem is_transcribing_scoped (s0 : BState) (h0 : s0.is_transcribing = false) :
    (∀ (api : Except String String) (cancelDuring : Bool) (file : String),
        (openai_transcribe true s0 api cancelDuring file).flagDuringBody
            = true ∧
        ∀ avail, (openai_transcribe avail s0 api cancelDuring file).flagAfter
            = false) ∧
    (∀ (sc : ℕ → Bool) (api : String → Except String String)
        (combine : List String → String) (files : List String),
        (openai_transcribe_chunks true s0 sc api combine files).flagDuringBody
            = true ∧
        ∀ avail,
          (openai_transcribe_chunks avail s0 sc api combine files).flagAfter
            = false) := by
  constructor
  · intro api cancelDuring file
    constructor
    · cases api with
      | error m => rfl
      | ok r => cases cancelDuring <;> rfl
    · intro avail
      cases avail with
      | false => exact h0
      | true =>
        cases api with
        | error m => rfl
        | ok r => cases cancelDuring <;> rfl
  · intro sc api combine files
    refine ⟨rfl, ?_⟩
    intro avail
    cases avail with
    | false => exact h0
    | true => rfl

/-- Concrete run of C9: flag true during a successful call, false after
an unavailable one. -/
theorem is_transcribing_scoped_witness :
    (openai_transcribe true ⟨false, false⟩ (.ok "x") false "f.wav").flagDuringBody
        = true ∧
    (openai_transcribe false ⟨false, false⟩ (.ok "x") false "f.wav").flagAfter
        = false := by
  have h := is_transcribing_scoped ⟨false, false⟩ rfl
  exact ⟨(h.1 (.ok "x") false "f.wav").1, (h.1 (.ok "x") false "f.wav").2 false⟩
